import Mathlib

/-!
Verification of the document-translation pipeline in `src/app.py`
(`dhyey18/translateApp`).

The program is a linear pipeline: intake (UI guard over an uploaded file and
an API key), transcription-translation (`process_translation`: stage the
payload in a temp file, call the remote service, guaranteed cleanup in a
`finally` block), and rendering (`convert_markdown_to_pdf_bytes`: markdown →
HTML with a fixed CSS template → PDF via the `pisa` rasterizer).

External collaborators (markdown-to-HTML converter, `pisa` rasterizer,
remote Gemini service) are modelled as function parameters / behaviour
oracles; the filesystem is an explicit state (a list of paths); UI output and
collaborator invocations are recorded in event traces so that claims of the
form "X is never invoked" and "the staging file is removed exactly once" can
be stated and settled.
-/

/-! ## Rendering stage: `convert_markdown_to_pdf_bytes` (src/app.py lines 20-66) -/

/-- Result object of `pisa.CreatePDF`: an error count (`pisa_status.err`,
truthy in Python iff nonzero) together with the bytes written into the
destination buffer. -/
structure PisaStatus where
  err : Nat
  out : List Nat
deriving DecidableEq

/-- Calls `convert_markdown_to_pdf_bytes` makes to its two collaborators:
`markdown.markdown(text, extensions=...)` and `pisa.CreatePDF(html, ...)`. -/
inductive RenderEvent
| mdConvert (text : String) (extensions : List String)
| rasterize (html : String)
deriving DecidableEq

/-- CSS rule `@page { size: A4; margin: 2cm; }` from the template
(src/app.py line 37). -/
def cssPage : String := "@page \x7b size: A4; margin: 2cm; \x7d"

/-- CSS body rule (src/app.py line 38). -/
def cssBody : String :=
  "body \x7b font-family: Helvetica, sans-serif; font-size: 11pt; line-height: 1.6; color: #333; \x7d"

/-- CSS h1 rule (src/app.py line 39). -/
def cssH1 : String :=
  "h1 \x7b color: #ffffff; background-color: #2c3e50; padding: 15px; text-align: center; \x7d"

/-- CSS h2 rule (src/app.py line 40). -/
def cssH2 : String :=
  "h2 \x7b color: #2980b9; border-bottom: 2px solid #ecf0f1; padding-bottom: 5px; margin-top: 20px; \x7d"

/-- CSS h3 rule (src/app.py line 41). -/
def cssH3 : String :=
  "h3 \x7b color: #16a085; font-weight: bold; margin-top: 15px; \x7d"

/-- CSS list rule (src/app.py line 42). -/
def cssUlOl : String := "ul, ol \x7b margin-bottom: 12px; padding-left: 20px; \x7d"

/-- CSS list-item rule (src/app.py line 43). -/
def cssLi : String := "li \x7b margin-bottom: 6px; \x7d"

/-- CSS blockquote rule (src/app.py line 44). -/
def cssBlockquote : String :=
  "blockquote \x7b background-color: #f9f9f9; border-left: 4px solid #bdc3c7; margin: 15px 0; padding: 10px; font-style: italic; \x7d"

/-- CSS inline-code rule (src/app.py line 45). -/
def cssCode : String :=
  "code \x7b background-color: #f4f4f4; padding: 2px 4px; font-family: Courier; \x7d"

/-- The f-string template opening, up to and including `<style>`
(src/app.py lines 31-36). -/
def htmlHead : String :=
  "\n    <!DOCTYPE html>\n    <html>\n    <head>\n        <meta charset=\"utf-8\">\n        <style>"

/-- Twelve-space indentation preceding each CSS rule line in the template. -/
def cssIndent : String := "\n            "

/-- The template between `</style>` and the interpolated `{html_body}`
(src/app.py lines 46-49). -/
def styleClose : String := "\n        </style>\n    </head>\n    <body>\n        "

/-- The template after the interpolated `{html_body}` (src/app.py
lines 50-52). -/
def htmlTail : String := "\n    </body>\n    </html>\n    "

/-- The fixed document template `html_content` of
`convert_markdown_to_pdf_bytes` (src/app.py lines 31-52): the f-string with
`html_body` interpolated, written as the concatenation of its literal
pieces. -/
def html_content (html_body : String) : String :=
  htmlHead ++ cssIndent ++ cssPage ++ cssIndent ++ cssBody ++ cssIndent ++ cssH1
    ++ cssIndent ++ cssH2 ++ cssIndent ++ cssH3 ++ cssIndent ++ cssUlOl
    ++ cssIndent ++ cssLi ++ cssIndent ++ cssBlockquote ++ cssIndent ++ cssCode
    ++ styleClose ++ html_body ++ htmlTail

/-- `convert_markdown_to_pdf_bytes` (src/app.py lines 20-66), parameterised
by its two collaborators: `md text extensions` is `markdown.markdown(text,
extensions=extensions)` and `pisa html` is `pisa.CreatePDF(html, dest, ...)`.
Returns the Python result (`None` or the PDF buffer contents) together with
the trace of collaborator calls made.  `if not markdown_text` is true for a
string exactly when it is empty; `if pisa_status.err` is true exactly when
the error count is nonzero. -/
def convert_markdown_to_pdf_bytes (md : String → List String → String)
    (pisa : String → PisaStatus) (markdown_text : String) :
    Option (List Nat) × List RenderEvent :=
  if markdown_text = "" then (none, [])
  else
    let html_body := md markdown_text ["extra", "nl2br"]
    let html := html_content html_body
    let pisa_status := pisa html
    let events := [RenderEvent.mdConvert markdown_text ["extra", "nl2br"],
                   RenderEvent.rasterize html]
    if pisa_status.err ≠ 0 then (none, events)
    else (some pisa_status.out, events)

/-! ## Transcription-translation stage: `process_translation`
(src/app.py lines 68-115) -/

/-- The filesystem, as the list of paths that currently exist. -/
structure FS where
  files : List String
deriving DecidableEq

/-- `os.path.exists`. -/
def FS.existsFile (fs : FS) (p : String) : Bool := fs.files.contains p

/-- `tempfile.NamedTemporaryFile(delete=False, ...)` followed by the write:
the staging path exists afterwards. -/
def FS.create (fs : FS) (p : String) : FS :=
  if fs.files.contains p then fs else ⟨p :: fs.files⟩

/-- `os.remove`: the path no longer exists afterwards. -/
def FS.remove (fs : FS) (p : String) : FS :=
  ⟨fs.files.filter (fun q => q ≠ p)⟩

/-- Observable actions of one `process_translation` call: creation of the
staging file, the two remote-service calls, the `st.error` message of the
`except` branch, and the `os.remove` of the `finally` block. -/
inductive TransEvent
| createTemp (path : String)
| uploadFile (path : String)
| generateContent (model : String) (prompt : String)
| stError (msg : String)
| removeFile (path : String)
deriving DecidableEq

/-- Discriminator for staging-file removal events. -/
def TransEvent.isRemove : TransEvent → Bool
  | .removeFile _ => true
  | _ => false

/-- Behaviour of the remote service during one call: `client.files.upload`
raises, `client.models.generate_content` raises, or the call succeeds and
`response.text` is returned. -/
inductive RemoteBehavior
| uploadRaises (msg : String)
| generateRaises (msg : String)
| returns (text : String)
deriving DecidableEq

/-- True when the remote call raises an exception (caught by the `except
Exception` branch of `process_translation`). -/
def RemoteBehavior.raises : RemoteBehavior → Bool
  | .uploadRaises _ => true
  | .generateRaises _ => true
  | .returns _ => false

/-- The message of the exception the remote call raises, if any. -/
def RemoteBehavior.faultMsg : RemoteBehavior → Option String
  | .uploadRaises msg => some msg
  | .generateRaises msg => some msg
  | .returns _ => none

/-- The fixed instructional prompt of `process_translation`
(src/app.py lines 89-99). -/
def geminiPrompt : String :=
  "\n            You are an expert translator. The document contains handwritten notes (likely in Gujarati).\n            1. Read the handwriting carefully.\n            2. Translate the content directly into English.\n            3. Formatting: \n               - Start with a Level 1 Header (# Title) for the Main Topic.\n               - Use Level 2 Headers (##) for sub-sections.\n               - Use bullet points for lists.\n               - Convert diagrams to nested lists.\n            4. Do not include original text, only English.\n            "

/-- `process_translation` (src/app.py lines 68-115): stages the upload at
`tmpPath` (the fresh path produced by `tempfile.NamedTemporaryFile`), runs
the `try` body (upload, then generate, then `return response.text`), the
`except Exception` branch (`st.error(f"An error occurred: {e}")`, `return
None`), and the `finally` block (`if os.path.exists(tmp_file_path):
os.remove(tmp_file_path)`).  Returns the Python return value, the final
filesystem, and the event trace. -/
def process_translation (remote : RemoteBehavior) (tmpPath : String) (fs : FS) :
    Option String × FS × List TransEvent :=
  let fs1 := FS.create fs tmpPath
  let bodyResult : Option String × List TransEvent :=
    match remote with
    | RemoteBehavior.uploadRaises msg =>
        (none, [TransEvent.uploadFile tmpPath,
                TransEvent.stError ("An error occurred: " ++ msg)])
    | RemoteBehavior.generateRaises msg =>
        (none, [TransEvent.uploadFile tmpPath,
                TransEvent.generateContent "gemini-2.5-flash" geminiPrompt,
                TransEvent.stError ("An error occurred: " ++ msg)])
    | RemoteBehavior.returns t =>
        (some t, [TransEvent.uploadFile tmpPath,
                  TransEvent.generateContent "gemini-2.5-flash" geminiPrompt])
  let cleanup : FS × List TransEvent :=
    if FS.existsFile fs1 tmpPath then
      (FS.remove fs1 tmpPath, [TransEvent.removeFile tmpPath])
    else (fs1, [])
  (bodyResult.1, cleanup.1,
    TransEvent.createTemp tmpPath :: bodyResult.2 ++ cleanup.2)

/-! ## UI layer (src/app.py lines 117-157) -/

/-- What the UI shows or does during one user action, in order: the
transcription-stage actions, the "File uploaded" banner, the translation
preview (`st.subheader` + `st.markdown(translation_text)`), the rendering
collaborator calls, the success banner plus `st.download_button`, the
"Failed to generate PDF layout." error, and the missing-API-key warning. -/
inductive UIEvent
| transEvent (e : TransEvent)
| fileUploadedBanner (name : String)
| previewShown (text : String)
| renderEvent (e : RenderEvent)
| pdfSuccessBanner
| downloadOffered (data : List Nat) (filename : String) (mime : String)
| renderFailedError
| missingKeyWarning
deriving DecidableEq

/-- The `st.button("Translate & Convert")` body (src/app.py lines 136-154):
run `process_translation`; if `translation_text` is truthy (in Python,
`None` and the empty string are falsy — the `match` plus the emptiness test
below mirror `if translation_text:` on `Optional[str]`), show the preview,
run `convert_markdown_to_pdf_bytes`, and either offer the download (with the
fixed filename and MIME type) or show the render-failure error.  There is no
`else` for a falsy `translation_text`. -/
def translate_and_convert (remote : RemoteBehavior)
    (md : String → List String → String) (pisa : String → PisaStatus)
    (tmpPath : String) (fs : FS) : FS × List UIEvent :=
  let r := process_translation remote tmpPath fs
  let translation_text := r.1
  let fs2 := r.2.1
  let pre := r.2.2.map UIEvent.transEvent
  match translation_text with
  | none => (fs2, pre)
  | some t =>
    if t = "" then (fs2, pre)
    else
      let conv := convert_markdown_to_pdf_bytes md pisa t
      let rEvs := conv.2.map UIEvent.renderEvent
      match conv.1 with
      | some bytes =>
          (fs2, pre ++ UIEvent.previewShown t :: rEvs
            ++ [UIEvent.pdfSuccessBanner,
                UIEvent.downloadOffered bytes "Translated_Notes.pdf" "application/pdf"])
      | none =>
          (fs2, pre ++ UIEvent.previewShown t :: rEvs ++ [UIEvent.renderFailedError])

/-- Outcome of the intake guard. -/
inductive IntakeOutcome
| proceed
| missingInput
deriving DecidableEq

/-- The intake stage: the guard `if uploaded_file is not None and api_key:`
(src/app.py line 133) decides whether the pipeline may run.  Both
non-proceed branches (line 156, the missing-key warning, and the implicit
no-op when no file is uploaded) stop the action before `process_translation`
and are the MissingInputError signal.  `api_key` is truthy iff non-empty. -/
def intake (uploaded_file : Option String) (api_key : String) : IntakeOutcome :=
  if uploaded_file.isSome && api_key ≠ "" then IntakeOutcome.proceed
  else IntakeOutcome.missingInput

/-- One user action at the top level (src/app.py lines 131-157):
`uploaded_file` is `None` or the name of the uploaded file, `buttonPressed`
tells whether `st.button("Translate & Convert")` returned true.  The guard
`if uploaded_file is not None and api_key:` runs the pipeline, the `elif
uploaded_file is not None and not api_key:` branch shows the warning, and
otherwise nothing happens. -/
def app_action (remote : RemoteBehavior)
    (md : String → List String → String) (pisa : String → PisaStatus)
    (tmpPath : String) (fs : FS)
    (uploaded_file : Option String) (api_key : String)
    (buttonPressed : Bool) : FS × List UIEvent :=
  match uploaded_file with
  | some name =>
      if api_key ≠ "" then
        if buttonPressed then
          let r := translate_and_convert remote md pisa tmpPath fs
          (r.1, UIEvent.fileUploadedBanner name :: r.2)
        else (fs, [UIEvent.fileUploadedBanner name])
      else (fs, [UIEvent.missingKeyWarning])
  | none => (fs, [])

/-- Discriminators on UI events, used to state "X is never invoked /
shown". -/
def UIEvent.isRemoteCall : UIEvent → Bool
  | .transEvent (TransEvent.uploadFile _) => true
  | .transEvent (TransEvent.generateContent _ _) => true
  | _ => false

/-- True for the two rendering-collaborator calls. -/
def UIEvent.isRenderCall : UIEvent → Bool
  | .renderEvent _ => true
  | _ => false

/-- True for the markdown-to-HTML conversion call. -/
def UIEvent.isMdConvertCall : UIEvent → Bool
  | .renderEvent (RenderEvent.mdConvert _ _) => true
  | _ => false

/-- True for the download offer. -/
def UIEvent.isDownload : UIEvent → Bool
  | .downloadOffered _ _ _ => true
  | _ => false

/-- True for the translation preview. -/
def UIEvent.isPreview : UIEvent → Bool
  | .previewShown _ => true
  | _ => false

/-- True for any user-visible error message (`st.error` of
`process_translation` or the render-failure error). -/
def UIEvent.isErrorMsg : UIEvent → Bool
  | .transEvent (TransEvent.stError _) => true
  | .renderFailedError => true
  | _ => false

/-! ## Concrete collaborator instances, used by the witnesses -/

/-- A concrete markdown collaborator: returns the input text unchanged. -/
def mdW : String → List String → String := fun t _ => t

/-- A concrete rasterizer that always reports one internal error. -/
def pisaErrW : String → PisaStatus := fun _ => ⟨1, []⟩

/-- A concrete rasterizer that always succeeds with a one-byte stream. -/
def pisaOkW : String → PisaStatus := fun _ => ⟨0, [37]⟩

/-- The same engine at a later time: succeeds with a different embedded
byte (modelling a rasterizer-embedded timestamp). -/
def pisaOk2W : String → PisaStatus := fun _ => ⟨0, [42]⟩

/-! ## Filesystem lemmas -/

/-- After `FS.create`, the created path exists. -/
theorem FS.existsFile_create (fs : FS) (p : String) :
    FS.existsFile (FS.create fs p) p = true := by
  unfold FS.existsFile FS.create
  by_cases h : p ∈ fs.files <;> simp [h]

/-- After `FS.remove`, the removed path no longer exists. -/
theorem FS.existsFile_remove (fs : FS) (p : String) :
    FS.existsFile (FS.remove fs p) p = false := by
  simp [FS.existsFile, FS.remove]

/-! ## The claims -/

/-- C1: for every call to `process_translation` (the `transcribe` stage),
the staging file is removed exactly once before the call returns —
regardless of whether the remote call succeeds, raises during upload, or
raises during generation — and after the call the staging path is absent
from the filesystem.  The trace contains exactly one removal event, that
event targets the staging path, and `os.path.exists` is false on the final
filesystem. -/
theorem staging_cleanup_c1 (remote : RemoteBehavior) (tmpPath : String) (fs : FS) :
    ((process_translation remote tmpPath fs).2.2).countP TransEvent.isRemove = 1
    ∧ TransEvent.removeFile tmpPath ∈ (process_translation remote tmpPath fs).2.2
    ∧ FS.existsFile (process_translation remote tmpPath fs).2.1 tmpPath = false := by
  cases remote <;>
    simp [process_translation, FS.existsFile_create, FS.existsFile_remove,
      TransEvent.isRemove, List.countP_cons, List.countP_append]

/-- C3: for the empty markdown input, `convert_markdown_to_pdf_bytes` (the
`render` stage) returns `None` (the failure signal) and makes no
collaborator call at all: neither the markdown-to-HTML conversion nor the
rasterization is invoked (the call trace is empty). -/
theorem render_empty_c3 (md : String → List String → String)
    (pisa : String → PisaStatus) :
    convert_markdown_to_pdf_bytes md pisa "" = (none, []) := rfl

/-- C5: when the rasterization library reports an internal error flag
(`pisa_status.err` nonzero) on the HTML built for a non-empty input,
`convert_markdown_to_pdf_bytes` returns `None`: the caller receives no byte
stream at all, in particular never a zero-length or error-flagged buffer as
a success value. -/
theorem render_rasterizer_error_c5 (md : String → List String → String)
    (pisa : String → PisaStatus) (t : String) (ht : t ≠ "")
    (herr : (pisa (html_content (md t ["extra", "nl2br"]))).err ≠ 0) :
    (convert_markdown_to_pdf_bytes md pisa t).1 = none := by
  simp [convert_markdown_to_pdf_bytes, ht, herr]

/-- Witness for C5 at a concrete input. -/
theorem render_rasterizer_error_c5_witness :
    ("x" ≠ "" ∧ (pisaErrW (html_content (mdW "x" ["extra", "nl2br"]))).err ≠ 0)
    ∧ (convert_markdown_to_pdf_bytes mdW pisaErrW "x").1 = none :=
  ⟨⟨by decide, by decide⟩,
   render_rasterizer_error_c5 mdW pisaErrW "x" (by decide) (by decide)⟩

/-- C7: for every non-empty markdown input, the `render` stage invokes the
markdown-to-HTML converter exactly once, with exactly the extension list
`["extra", "nl2br"]` (the permissive "extra" syntax plus
newline-to-line-break conversion), and then the rasterizer exactly once on
the wrapped result: the full collaborator-call trace is these two calls. -/
theorem render_extensions_c7 (md : String → List String → String)
    (pisa : String → PisaStatus) (t : String) (ht : t ≠ "") :
    (convert_markdown_to_pdf_bytes md pisa t).2
      = [RenderEvent.mdConvert t ["extra", "nl2br"],
         RenderEvent.rasterize (html_content (md t ["extra", "nl2br"]))] := by
  unfold convert_markdown_to_pdf_bytes
  simp only [if_neg ht]
  split <;> rfl

/-- Witness for C7 at a concrete input. -/
theorem render_extensions_c7_witness :
    "x" ≠ ""
    ∧ (convert_markdown_to_pdf_bytes mdW pisaOkW "x").2
      = [RenderEvent.mdConvert "x" ["extra", "nl2br"],
         RenderEvent.rasterize (html_content (mdW "x" ["extra", "nl2br"]))] :=
  ⟨by decide, render_extensions_c7 mdW pisaOkW "x" (by decide)⟩

/-- `pat` occurs as a contiguous segment of `s`. -/
def ContainsSeg (s pat : String) : Prop := ∃ l r, s = l ++ pat ++ r

/-- The template contains the `@page` rule. -/
theorem html_content_has_cssPage (b : String) : ContainsSeg (html_content b) cssPage :=
  ⟨htmlHead ++ cssIndent,
   cssIndent ++ cssBody ++ cssIndent ++ cssH1 ++ cssIndent ++ cssH2 ++ cssIndent ++ cssH3
     ++ cssIndent ++ cssUlOl ++ cssIndent ++ cssLi ++ cssIndent ++ cssBlockquote
     ++ cssIndent ++ cssCode ++ styleClose ++ b ++ htmlTail,
   by simp only [html_content, String.append_assoc]⟩

/-- The template contains the `body` rule. -/
theorem html_content_has_cssBody (b : String) : ContainsSeg (html_content b) cssBody :=
  ⟨htmlHead ++ cssIndent ++ cssPage ++ cssIndent,
   cssIndent ++ cssH1 ++ cssIndent ++ cssH2 ++ cssIndent ++ cssH3
     ++ cssIndent ++ cssUlOl ++ cssIndent ++ cssLi ++ cssIndent ++ cssBlockquote
     ++ cssIndent ++ cssCode ++ styleClose ++ b ++ htmlTail,
   by simp only [html_content, String.append_assoc]⟩

/-- The template contains the `h1` rule. -/
theorem html_content_has_cssH1 (b : String) : ContainsSeg (html_content b) cssH1 :=
  ⟨htmlHead ++ cssIndent ++ cssPage ++ cssIndent ++ cssBody ++ cssIndent,
   cssIndent ++ cssH2 ++ cssIndent ++ cssH3
     ++ cssIndent ++ cssUlOl ++ cssIndent ++ cssLi ++ cssIndent ++ cssBlockquote
     ++ cssIndent ++ cssCode ++ styleClose ++ b ++ htmlTail,
   by simp only [html_content, String.append_assoc]⟩

/-- The template contains the `h2` rule. -/
theorem html_content_has_cssH2 (b : String) : ContainsSeg (html_content b) cssH2 :=
  ⟨htmlHead ++ cssIndent ++ cssPage ++ cssIndent ++ cssBody ++ cssIndent ++ cssH1 ++ cssIndent,
   cssIndent ++ cssH3 ++ cssIndent ++ cssUlOl ++ cssIndent ++ cssLi ++ cssIndent ++ cssBlockquote
     ++ cssIndent ++ cssCode ++ styleClose ++ b ++ htmlTail,
   by simp only [html_content, String.append_assoc]⟩

/-- The template contains the `h3` rule. -/
theorem html_content_has_cssH3 (b : String) : ContainsSeg (html_content b) cssH3 :=
  ⟨htmlHead ++ cssIndent ++ cssPage ++ cssIndent ++ cssBody ++ cssIndent ++ cssH1
     ++ cssIndent ++ cssH2 ++ cssIndent,
   cssIndent ++ cssUlOl ++ cssIndent ++ cssLi ++ cssIndent ++ cssBlockquote
     ++ cssIndent ++ cssCode ++ styleClose ++ b ++ htmlTail,
   by simp only [html_content, String.append_assoc]⟩

/-- The template contains the `blockquote` rule. -/
theorem html_content_has_cssBlockquote (b : String) :
    ContainsSeg (html_content b) cssBlockquote :=
  ⟨htmlHead ++ cssIndent ++ cssPage ++ cssIndent ++ cssBody ++ cssIndent ++ cssH1
     ++ cssIndent ++ cssH2 ++ cssIndent ++ cssH3 ++ cssIndent ++ cssUlOl
     ++ cssIndent ++ cssLi ++ cssIndent,
   cssIndent ++ cssCode ++ styleClose ++ b ++ htmlTail,
   by simp only [html_content, String.append_assoc]⟩

/-- The template contains the `code` rule. -/
theorem html_content_has_cssCode (b : String) : ContainsSeg (html_content b) cssCode :=
  ⟨htmlHead ++ cssIndent ++ cssPage ++ cssIndent ++ cssBody ++ cssIndent ++ cssH1
     ++ cssIndent ++ cssH2 ++ cssIndent ++ cssH3 ++ cssIndent ++ cssUlOl
     ++ cssIndent ++ cssLi ++ cssIndent ++ cssBlockquote ++ cssIndent,
   styleClose ++ b ++ htmlTail,
   by simp only [html_content, String.append_assoc]⟩

/-- C8: for every non-empty markdown input, the rasterizer is invoked on
the converted HTML body wrapped in the fixed document template
`html_content`, whose stylesheet declares: page size A4 with 2 cm margins
(`cssPage`), a sans-serif body font at 11pt with 1.6 line-height
(`cssBody`), top-level headings as white text (`#ffffff`) on the dark
blue-grey banner `#2c3e50` with padding (`cssH1`), second-level headings in
blue `#2980b9` with a bottom border (`cssH2`), third-level headings in teal
`#16a085` bold (`cssH3`), block quotations with the light-grey background
`#f9f9f9`, a left accent border and italic text (`cssBlockquote`), and
inline code on the light-grey background `#f4f4f4` in the monospace font
Courier (`cssCode`). -/
theorem render_template_c8 (md : String → List String → String)
    (pisa : String → PisaStatus) (t : String) (ht : t ≠ "") :
    RenderEvent.rasterize (html_content (md t ["extra", "nl2br"]))
        ∈ (convert_markdown_to_pdf_bytes md pisa t).2
    ∧ ContainsSeg (html_content (md t ["extra", "nl2br"])) cssPage
    ∧ ContainsSeg (html_content (md t ["extra", "nl2br"])) cssBody
    ∧ ContainsSeg (html_content (md t ["extra", "nl2br"])) cssH1
    ∧ ContainsSeg (html_content (md t ["extra", "nl2br"])) cssH2
    ∧ ContainsSeg (html_content (md t ["extra", "nl2br"])) cssH3
    ∧ ContainsSeg (html_content (md t ["extra", "nl2br"])) cssBlockquote
    ∧ ContainsSeg (html_content (md t ["extra", "nl2br"])) cssCode := by
  refine ⟨?_, html_content_has_cssPage _, html_content_has_cssBody _,
    html_content_has_cssH1 _, html_content_has_cssH2 _, html_content_has_cssH3 _,
    html_content_has_cssBlockquote _, html_content_has_cssCode _⟩
  unfold convert_markdown_to_pdf_bytes
  simp only [if_neg ht]
  split <;> simp

/-- Witness for C8 at a concrete input. -/
theorem render_template_c8_witness :
    "x" ≠ ""
    ∧ (RenderEvent.rasterize (html_content (mdW "x" ["extra", "nl2br"]))
        ∈ (convert_markdown_to_pdf_bytes mdW pisaOkW "x").2
      ∧ ContainsSeg (html_content (mdW "x" ["extra", "nl2br"])) cssPage
      ∧ ContainsSeg (html_content (mdW "x" ["extra", "nl2br"])) cssBody
      ∧ ContainsSeg (html_content (mdW "x" ["extra", "nl2br"])) cssH1
      ∧ ContainsSeg (html_content (mdW "x" ["extra", "nl2br"])) cssH2
      ∧ ContainsSeg (html_content (mdW "x" ["extra", "nl2br"])) cssH3
      ∧ ContainsSeg (html_content (mdW "x" ["extra", "nl2br"])) cssBlockquote
      ∧ ContainsSeg (html_content (mdW "x" ["extra", "nl2br"])) cssCode) :=
  ⟨by decide, render_template_c8 mdW pisaOkW "x" (by decide)⟩

/-- C9: `render` is deterministic up to rasterizer-embedded timestamps.
The pipeline feeds the rasterizer the identical HTML on both calls, so for
any two runs of the rasterization engine (`pisa1`, `pisa2`, e.g. the same
engine at two different clock times) that agree on success/failure and on
the decoded page count and visible text (`decode`) of their outputs, the
two `render` results decode identically. -/
theorem render_deterministic_c9 (md : String → List String → String)
    (pisa1 pisa2 : String → PisaStatus) (decode : List Nat → Nat × String)
    (t : String)
    (hagree : ∀ html, (pisa1 html).err = (pisa2 html).err
        ∧ decode (pisa1 html).out = decode (pisa2 html).out) :
    Option.map decode (convert_markdown_to_pdf_bytes md pisa1 t).1
      = Option.map decode (convert_markdown_to_pdf_bytes md pisa2 t).1 := by
  by_cases ht : t = ""
  · subst ht; rfl
  · obtain ⟨he, ho⟩ := hagree (html_content (md t ["extra", "nl2br"]))
    unfold convert_markdown_to_pdf_bytes
    simp only [if_neg ht]
    by_cases herr : (pisa2 (html_content (md t ["extra", "nl2br"]))).err ≠ 0
    · rw [he] at *
      simp [herr]
    · rw [he] at *
      simp [herr, ho]

/-- Witness for C9: two rasterizer runs differing only in the embedded
byte. -/
theorem render_deterministic_c9_witness :
    (∀ html, (pisaOkW html).err = (pisaOk2W html).err
        ∧ (fun _ => ((1 : Nat), "T")) (pisaOkW html).out
            = (fun _ => ((1 : Nat), "T")) (pisaOk2W html).out)
    ∧ Option.map (fun _ => ((1 : Nat), "T"))
        (convert_markdown_to_pdf_bytes mdW pisaOkW "x").1
      = Option.map (fun _ => ((1 : Nat), "T"))
        (convert_markdown_to_pdf_bytes mdW pisaOk2W "x").1 :=
  ⟨fun _ => ⟨rfl, rfl⟩,
   render_deterministic_c9 mdW pisaOkW pisaOk2W (fun _ => (1, "T")) "x"
     (fun _ => ⟨rfl, rfl⟩)⟩

/-- C2: the intake guard signals MissingInputError exactly when the payload
is absent or the credential is empty (first conjunct); with an empty payload
it signals MissingInputError whatever the credential (second conjunct, which
covers the scenario of a non-empty credential); and in that scenario the
user action produces no events at all — in particular `process_translation`
(the `transcribe` stage) is never invoked (third conjunct). -/
theorem intake_missing_input_c2 :
    (∀ (uf : Option String) (k : String),
        intake uf k = IntakeOutcome.missingInput ↔ (uf = none ∨ k = ""))
    ∧ (∀ k : String, intake none k = IntakeOutcome.missingInput)
    ∧ (∀ (remote : RemoteBehavior) (md : String → List String → String)
        (pisa : String → PisaStatus) (tmpPath : String) (fs : FS) (k : String)
        (button : Bool),
        (app_action remote md pisa tmpPath fs none k button).2 = []) := by
  refine ⟨?_, ?_, ?_⟩
  · intro uf k
    cases uf <;> by_cases hk : k = "" <;> simp [intake, hk]
  · intro k
    simp [intake]
  · intro remote md pisa tmpPath fs k button
    rfl

/-- C4: when the remote service call raises any fault (during upload or
during generation), `process_translation` returns `None` rather than a
translation value — never a placeholder — after showing the `st.error`
message that carries the underlying cause; in the subsequent UI flow the
rendering stage is never invoked, no preview is shown, and no download is
offered. -/
theorem transcription_fault_c4 (remote : RemoteBehavior) (msg : String)
    (hr : remote.faultMsg = some msg)
    (md : String → List String → String) (pisa : String → PisaStatus)
    (tmpPath : String) (fs : FS) :
    (process_translation remote tmpPath fs).1 = none
    ∧ TransEvent.stError ("An error occurred: " ++ msg)
        ∈ (process_translation remote tmpPath fs).2.2
    ∧ (translate_and_convert remote md pisa tmpPath fs).2.countP UIEvent.isRenderCall = 0
    ∧ (translate_and_convert remote md pisa tmpPath fs).2.countP UIEvent.isPreview = 0
    ∧ (translate_and_convert remote md pisa tmpPath fs).2.countP UIEvent.isDownload = 0 := by
  cases remote with
  | uploadRaises m =>
      obtain rfl : m = msg := by simpa [RemoteBehavior.faultMsg] using hr
      simp [process_translation, translate_and_convert, FS.existsFile_create,
        UIEvent.isRenderCall, UIEvent.isPreview, UIEvent.isDownload,
        List.countP_cons, List.countP_append]
  | generateRaises m =>
      obtain rfl : m = msg := by simpa [RemoteBehavior.faultMsg] using hr
      simp [process_translation, translate_and_convert, FS.existsFile_create,
        UIEvent.isRenderCall, UIEvent.isPreview, UIEvent.isDownload,
        List.countP_cons, List.countP_append]
  | returns t =>
      simp [RemoteBehavior.faultMsg] at hr

/-- Witness for C4 at a concrete fault. -/
theorem transcription_fault_c4_witness :
    (RemoteBehavior.uploadRaises "boom").faultMsg = some "boom"
    ∧ ((process_translation (RemoteBehavior.uploadRaises "boom") "/tmp/a.pdf" ⟨[]⟩).1 = none
      ∧ TransEvent.stError ("An error occurred: " ++ "boom")
          ∈ (process_translation (RemoteBehavior.uploadRaises "boom") "/tmp/a.pdf" ⟨[]⟩).2.2
      ∧ (translate_and_convert (RemoteBehavior.uploadRaises "boom") mdW pisaOkW
          "/tmp/a.pdf" ⟨[]⟩).2.countP UIEvent.isRenderCall = 0
      ∧ (translate_and_convert (RemoteBehavior.uploadRaises "boom") mdW pisaOkW
          "/tmp/a.pdf" ⟨[]⟩).2.countP UIEvent.isPreview = 0
      ∧ (translate_and_convert (RemoteBehavior.uploadRaises "boom") mdW pisaOkW
          "/tmp/a.pdf" ⟨[]⟩).2.countP UIEvent.isDownload = 0) :=
  ⟨rfl, transcription_fault_c4 (RemoteBehavior.uploadRaises "boom") "boom" rfl
    mdW pisaOkW "/tmp/a.pdf" ⟨[]⟩⟩

/-- C6: when rendering fails after a successful transcription (remote
returns non-empty text `t`, rasterizer reports an error), the preview of the
translation text is in the final UI trace — the UI model is append-only, so
an event in the final trace is still displayed when the action ends — along
with the distinct render-failure error, and no download is offered: the
rendering failure neither alters nor removes the already-shown transcription
result. -/
theorem render_failure_keeps_preview_c6 (t : String) (ht : t ≠ "")
    (md : String → List String → String) (pisa : String → PisaStatus)
    (tmpPath : String) (fs : FS)
    (herr : (pisa (html_content (md t ["extra", "nl2br"]))).err ≠ 0) :
    UIEvent.previewShown t
        ∈ (translate_and_convert (RemoteBehavior.returns t) md pisa tmpPath fs).2
    ∧ UIEvent.renderFailedError
        ∈ (translate_and_convert (RemoteBehavior.returns t) md pisa tmpPath fs).2
    ∧ (translate_and_convert (RemoteBehavior.returns t) md pisa tmpPath fs).2.countP
        UIEvent.isDownload = 0 := by
  simp [translate_and_convert, process_translation, convert_markdown_to_pdf_bytes,
    FS.existsFile_create, ht, herr, UIEvent.isDownload,
    List.countP_cons, List.countP_append]

/-- Witness for C6 at a concrete input. -/
theorem render_failure_keeps_preview_c6_witness :
    ("x" ≠ "" ∧ (pisaErrW (html_content (mdW "x" ["extra", "nl2br"]))).err ≠ 0)
    ∧ (UIEvent.previewShown "x"
        ∈ (translate_and_convert (RemoteBehavior.returns "x") mdW pisaErrW "/tmp/a.pdf" ⟨[]⟩).2
      ∧ UIEvent.renderFailedError
        ∈ (translate_and_convert (RemoteBehavior.returns "x") mdW pisaErrW "/tmp/a.pdf" ⟨[]⟩).2
      ∧ (translate_and_convert (RemoteBehavior.returns "x") mdW pisaErrW "/tmp/a.pdf" ⟨[]⟩).2.countP
          UIEvent.isDownload = 0) :=
  ⟨⟨by decide, by decide⟩,
   render_failure_keeps_preview_c6 "x" (by decide) mdW pisaErrW "/tmp/a.pdf" ⟨[]⟩ (by decide)⟩

/-- C10: when the remote call completes without raising but returns the
empty string, `process_translation` returns it as the (falsy) value
`some ""`, and the UI flow is a silent no-op past the pipeline boundary: the
rendering stage is never invoked, no preview is shown, no download is
offered, and no error message of any kind is displayed. -/
theorem empty_response_silent_c10 (md : String → List String → String)
    (pisa : String → PisaStatus) (tmpPath : String) (fs : FS) :
    (process_translation (RemoteBehavior.returns "") tmpPath fs).1 = some ""
    ∧ (translate_and_convert (RemoteBehavior.returns "") md pisa tmpPath fs).2.countP
        UIEvent.isRenderCall = 0
    ∧ (translate_and_convert (RemoteBehavior.returns "") md pisa tmpPath fs).2.countP
        UIEvent.isPreview = 0
    ∧ (translate_and_convert (RemoteBehavior.returns "") md pisa tmpPath fs).2.countP
        UIEvent.isDownload = 0
    ∧ (translate_and_convert (RemoteBehavior.returns "") md pisa tmpPath fs).2.countP
        UIEvent.isErrorMsg = 0 := by
  simp [translate_and_convert, process_translation, FS.existsFile_create,
    UIEvent.isRenderCall, UIEvent.isPreview, UIEvent.isDownload, UIEvent.isErrorMsg,
    List.countP_cons, List.countP_append]
